import Mathlib

/-!
Verification of the balance reconciliation core of a bank-statement
analyser.  The embedding models monetary amounts as exact rationals
(the spec mandates decimal arithmetic for amounts), strings as Lean
strings, and Python exceptions (`ValueError`) as `Except String`.
Python's `round(x, 3)` is modelled as exact round-half-to-even at three
decimal places.
-/

set_option autoImplicit false

namespace BankStatement

/-- Money value: an amount together with a currency code.  The empty
string is the sentinel for "no currency established yet". -/
structure Money where
  amount : ℚ
  currency : String
  deriving Repr, DecidableEq

/-- A dated, described monetary movement with optional reference. -/
structure Transaction where
  date : String
  description : String
  money : Money
  reference : Option String
  deriving Repr, DecidableEq

/-- The statement's self-reported opening/closing balances. -/
structure BalanceAnalysis where
  opening_balance : Money
  opening_date : String
  closing_balance : Money
  closing_date : String
  deriving Repr, DecidableEq

/-- Totals derived from a transaction list. -/
structure TransactionTotals where
  total_deposits : Money
  total_withdrawals : Money
  net_change : Money
  deriving Repr, DecidableEq

/-- The terminal artifact of reconciliation. -/
structure ReconciliationResult where
  opening_balance : Money
  closing_balance : Money
  total_deposits : Money
  total_withdrawals : Money
  net_change : Money
  expected_closing_balance : Money
  reconciles : Bool
  discrepancy_reason : Option String
  transactions_count : Nat
  deriving Repr, DecidableEq

/-- One step of the dict-building loop of `sum_moneys`: if the currency
is already a key, add the amount to its entry (Python
`currency_total[money.currency] += money.amount`), otherwise append a
fresh entry initialised to `0` and immediately incremented.  The
association list mirrors a Python dict's insertion order. -/
def addToTotals (acc : List (String × ℚ)) (m : Money) : List (String × ℚ) :=
  if acc.any (fun p => p.1 = m.currency) then
    acc.map (fun p => if p.1 = m.currency then (p.1, p.2 + m.amount) else p)
  else
    acc ++ [(m.currency, 0 + m.amount)]

/-- Embedding of `sum_moneys` (utils.py): accumulate amounts per
currency into an insertion-ordered mapping and materialise it as a list
of `Money`. -/
def sum_moneys (moneys : List Money) : List Money :=
  (moneys.foldl addToTotals []).map (fun p => { amount := p.2, currency := p.1 })

/-- Embedding of `calculate_transaction_totals`
(balance_reconciliation.py).  `ValueError` is modelled as
`Except.error` carrying the Python message. -/
def calculate_transaction_totals (transactions : List Transaction) :
    Except String TransactionTotals :=
  if transactions.length = 0 then
    Except.ok
      { total_deposits := { amount := 0, currency := "" }
        total_withdrawals := { amount := 0, currency := "" }
        net_change := { amount := 0, currency := "" } }
  else
    let deposits := transactions.filter (fun t => 0 < t.money.amount)
    let withdrawals := transactions.filter (fun t => t.money.amount < 0)
    let all_deposits := sum_moneys (deposits.map (fun t => t.money))
    if 1 < all_deposits.length then
      Except.error "Multiple currencies found in deposits"
    else
      let deposits_sum : Money := match all_deposits with
        | [m] => m
        | _ => { amount := 0, currency := "" }
      let all_withdrawals := sum_moneys (withdrawals.map (fun t => t.money))
      if 1 < all_withdrawals.length then
        Except.error "Multiple currencies found in withdrawals"
      else
        let withdrawals_sum : Money := match all_withdrawals with
          | [m] => m
          | _ => { amount := 0, currency := "" }
        if deposits_sum.currency ≠ "" ∧ withdrawals_sum.currency ≠ "" ∧
            deposits_sum.currency ≠ withdrawals_sum.currency then
          Except.error "Deposits and withdrawals have different currencies"
        else
          Except.ok
            { total_deposits := deposits_sum
              total_withdrawals := withdrawals_sum
              net_change :=
                { amount := deposits_sum.amount + withdrawals_sum.amount
                  currency := deposits_sum.currency } }

/-- Round a rational to the nearest integer, ties to even: the model of
Python's built-in `round` on exact decimal values. -/
def roundHalfEven (x : ℚ) : ℤ :=
  let n := Rat.floor x
  if x - n < 1/2 then n
  else if 1/2 < x - n then n + 1
  else if n % 2 = 0 then n else n + 1

/-- Model of Python `round(x, 3)`: round to three decimal places. -/
def round3 (x : ℚ) : ℚ :=
  (roundHalfEven (x * 1000) : ℚ) / 1000

/-- Rendering of a numeric amount inside the discrepancy message
(model of Python string interpolation of a number). -/
def showAmount (x : ℚ) : String :=
  toString x

/-- Rendering of a `Money` value inside the discrepancy message. -/
def showMoney (m : Money) : String :=
  "amount=" ++ showAmount m.amount ++ " currency=" ++ m.currency

/-- The part of the discrepancy reason that precedes the rounded
difference: it enumerates the opening balance, both totals, the net
change, and the expected and reported closing balances. -/
def discrepancyPreamble (balance_info : BalanceAnalysis)
    (totals : TransactionTotals) (expected_closing : ℚ) : String :=
  "Discrepancy detected:" ++
  "Opening balance: " ++ showMoney balance_info.opening_balance ++
  "Total deposits: " ++ showMoney totals.total_deposits ++
  "Total withdrawals: " ++ showMoney totals.total_withdrawals ++
  "Net change: " ++ showMoney totals.net_change ++
  "Expected closing balance: " ++ showAmount expected_closing ++
  "Reported closing balance: " ++ showMoney balance_info.closing_balance ++
  "Difference (should be less than 0.01): "

/-- The closing note of the discrepancy reason. -/
def discrepancyTail : String :=
  "This may be due to missing transactions, fees not captured in the transaction list, " ++
  "or calculation errors."

/-- The human-readable discrepancy reason built by `reconcile_balances`
when the balances do not reconcile: the enumerating preamble, then the
rendered rounded difference, then the closing note. -/
def discrepancyMessage (balance_info : BalanceAnalysis)
    (totals : TransactionTotals) (expected_closing difference : ℚ) : String :=
  discrepancyPreamble balance_info totals expected_closing ++
    showAmount difference ++ discrepancyTail

/-- Embedding of `reconcile_balances` (balance_reconciliation.py): the
`MultiCurrencyError` raised by `calculate_transaction_totals`
propagates unchanged through the monadic bind. -/
def reconcile_balances (balance_info : BalanceAnalysis)
    (transactions : List Transaction) : Except String ReconciliationResult := do
  let totals ← calculate_transaction_totals transactions
  let net_change := totals.net_change
  let expected_closing := balance_info.opening_balance.amount + net_change.amount
  let difference := round3 |expected_closing - balance_info.closing_balance.amount|
  let reconciles : Bool := difference < 1/100
  if !reconciles then
    pure
      { opening_balance := balance_info.opening_balance
        closing_balance := balance_info.closing_balance
        total_deposits := totals.total_deposits
        total_withdrawals := totals.total_withdrawals
        net_change := net_change
        expected_closing_balance :=
          { amount := expected_closing
            currency := balance_info.closing_balance.currency }
        reconciles := false
        discrepancy_reason :=
          some (discrepancyMessage balance_info totals expected_closing difference)
        transactions_count := transactions.length }
  else
    pure
      { opening_balance := balance_info.opening_balance
        closing_balance := balance_info.closing_balance
        total_deposits := totals.total_deposits
        total_withdrawals := totals.total_withdrawals
        net_change := net_change
        expected_closing_balance :=
          { amount := expected_closing
            currency := balance_info.closing_balance.currency }
        reconciles := true
        discrepancy_reason := none
        transactions_count := transactions.length }

/-- Sum of the amounts of the moneys in the list whose currency is `c`
(spec §4.1: "the decimal sum of amounts in that currency"). -/
def currencySum (c : String) : List Money → ℚ
  | [] => 0
  | m :: ms => (if m.currency = c then m.amount else 0) + currencySum c ms

/-- The currencies occurring in a money list, ordered by first
occurrence (spec §4.1: "insertion order of first occurrence"). -/
def distinctCurrencies : List Money → List String
  | [] => []
  | m :: ms => m.currency :: (distinctCurrencies ms).filter (fun c => decide (c ≠ m.currency))

/-- The currency aggregator as the spec words it (§4.1): one `Money`
per distinct currency, carrying the sum of the amounts in that
currency, ordered by first occurrence of the currency. -/
def sum_moneys_spec (ms : List Money) : List Money :=
  (distinctCurrencies ms).map (fun c => { amount := currencySum c ms, currency := c })

/-- Closed form of the dict-building fold of `sum_moneys` started from
an arbitrary accumulator: existing entries grow by their currency's
sum, and currencies not yet present are appended in first-occurrence
order. -/
def specMerge (acc : List (String × ℚ)) (ms : List Money) : List (String × ℚ) :=
  acc.map (fun p => (p.1, p.2 + currencySum p.1 ms)) ++
    ((distinctCurrencies ms).filter (fun c => decide (c ∉ acc.map Prod.fst))).map
      (fun c => (c, currencySum c ms))

/-- The moneys of the deposit subset (amounts > 0) of a transaction
list. -/
def depositMoneys (transactions : List Transaction) : List Money :=
  (transactions.filter (fun t => 0 < t.money.amount)).map (fun t => t.money)

/-- The moneys of the withdrawal subset (amounts < 0) of a transaction
list. -/
def withdrawalMoneys (transactions : List Transaction) : List Money :=
  (transactions.filter (fun t => t.money.amount < 0)).map (fun t => t.money)

/-- The single currency of a money list when it has exactly one
distinct currency; the empty sentinel otherwise. -/
def soleCurrency (ms : List Money) : String :=
  match distinctCurrencies ms with
  | [c] => c
  | _ => ""

/-- The sum `calculate_transaction_totals` assigns to the deposit side:
the aggregated single-currency sum when deposits resolve to exactly one
currency, and the zero sentinel when there are no deposits. -/
def depositsSumOf (transactions : List Transaction) : Money :=
  match distinctCurrencies (depositMoneys transactions) with
  | [c] => { amount := currencySum c (depositMoneys transactions), currency := c }
  | _ => { amount := 0, currency := "" }

/-- The sum `calculate_transaction_totals` assigns to the withdrawal
side. -/
def withdrawalsSumOf (transactions : List Transaction) : Money :=
  match distinctCurrencies (withdrawalMoneys transactions) with
  | [c] => { amount := currencySum c (withdrawalMoneys transactions), currency := c }
  | _ => { amount := 0, currency := "" }

/-- The multi-currency error condition as the spec words it: the
deposit subset spans more than one currency, or the withdrawal subset
spans more than one currency, or the two sums have non-empty currencies
that differ. -/
def multiCurrencyCondition (transactions : List Transaction) : Prop :=
  1 < (distinctCurrencies (depositMoneys transactions)).length ∨
  1 < (distinctCurrencies (withdrawalMoneys transactions)).length ∨
  (soleCurrency (depositMoneys transactions) ≠ "" ∧
   soleCurrency (withdrawalMoneys transactions) ≠ "" ∧
   soleCurrency (depositMoneys transactions) ≠ soleCurrency (withdrawalMoneys transactions))

/-- The `ReconciliationResult` that `reconcile_balances` returns once
totals computation has succeeded with the given totals. -/
def reconcileResultOf (balance_info : BalanceAnalysis)
    (transactions : List Transaction) (totals : TransactionTotals) :
    ReconciliationResult :=
  let expected_closing := balance_info.opening_balance.amount + totals.net_change.amount
  let difference := round3 |expected_closing - balance_info.closing_balance.amount|
  if difference < 1/100 then
    { opening_balance := balance_info.opening_balance
      closing_balance := balance_info.closing_balance
      total_deposits := totals.total_deposits
      total_withdrawals := totals.total_withdrawals
      net_change := totals.net_change
      expected_closing_balance :=
        { amount := expected_closing
          currency := balance_info.closing_balance.currency }
      reconciles := true
      discrepancy_reason := none
      transactions_count := transactions.length }
  else
    { opening_balance := balance_info.opening_balance
      closing_balance := balance_info.closing_balance
      total_deposits := totals.total_deposits
      total_withdrawals := totals.total_withdrawals
      net_change := totals.net_change
      expected_closing_balance :=
        { amount := expected_closing
          currency := balance_info.closing_balance.currency }
      reconciles := false
      discrepancy_reason :=
        some (discrepancyMessage balance_info totals expected_closing difference)
      transactions_count := transactions.length }

/-- A concrete transaction used in concrete evaluations. -/
def sampleTx (a : ℚ) (c : String) : Transaction :=
  { date := "2024-01-01"
    description := "sample"
    money := { amount := a, currency := c }
    reference := none }

/-- A concrete balance claim with the given opening and closing
amounts, both in the given currency. -/
def sampleClaim (openingAmt closingAmt : ℚ) (c : String) : BalanceAnalysis :=
  { opening_balance := { amount := openingAmt, currency := c }
    opening_date := "2024-01-01"
    closing_balance := { amount := closingAmt, currency := c }
    closing_date := "2024-01-31" }

/-- The all-zero totals with the empty-currency sentinel, as returned
for an empty transaction list. -/
def zeroTotals : TransactionTotals :=
  { total_deposits := { amount := 0, currency := "" }
    total_withdrawals := { amount := 0, currency := "" }
    net_change := { amount := 0, currency := "" } }

/-- The spec's running example: deposits of 100 and 10 and a withdrawal
of 40, all in USD. -/
def sampleTxs : List Transaction :=
  [sampleTx 100 "USD", sampleTx (-40) "USD", sampleTx 10 "USD"]

/-- The totals of `sampleTxs`. -/
def sampleTotals : TransactionTotals :=
  { total_deposits := { amount := 110, currency := "USD" }
    total_withdrawals := { amount := -40, currency := "USD" }
    net_change := { amount := 70, currency := "USD" } }

/-- The totals of a list holding the single withdrawal of 20 USD. -/
def onlyWithdrawalTotals : TransactionTotals :=
  { total_deposits := { amount := 0, currency := "" }
    total_withdrawals := { amount := -20, currency := "USD" }
    net_change := { amount := -20, currency := "" } }

end BankStatement

namespace BankStatement

theorem currencySum_cons (c : String) (m : Money) (ms : List Money) :
    currencySum c (m :: ms) = (if m.currency = c then m.amount else 0) + currencySum c ms := rfl

theorem distinctCurrencies_cons (m : Money) (ms : List Money) :
    distinctCurrencies (m :: ms)
      = m.currency :: (distinctCurrencies ms).filter (fun c => decide (c ≠ m.currency)) := rfl

theorem specMerge_addToTotals (acc : List (String × ℚ)) (m : Money) (ms : List Money) :
    specMerge (addToTotals acc m) ms = specMerge acc (m :: ms) := by
  by_cases h : m.currency ∈ acc.map Prod.fst
  · have hany : acc.any (fun p => decide (p.1 = m.currency)) = true := by
      simp only [List.any_eq_true, decide_eq_true_eq]
      obtain ⟨p, hp, hpe⟩ := List.mem_map.mp h
      exact ⟨p, hp, hpe⟩
    rw [addToTotals, if_pos hany]
    unfold specMerge
    have hkeys : ((acc.map (fun p => if p.1 = m.currency then (p.1, p.2 + m.amount) else p)).map
        Prod.fst) = acc.map Prod.fst := by
      rw [List.map_map]
      apply List.map_congr_left
      intro p _
      by_cases hp : p.1 = m.currency <;> simp [hp]
    rw [hkeys]
    congr 1
    · rw [List.map_map]
      apply List.map_congr_left
      intro p _
      simp only [Function.comp_apply, currencySum_cons]
      by_cases hp : p.1 = m.currency
      · rw [if_pos hp, if_pos hp.symm]
        simp [add_assoc]
      · rw [if_neg hp, if_neg (fun he => hp he.symm), zero_add]
    · rw [distinctCurrencies_cons, List.filter_cons, if_neg (by simp [h]), List.filter_filter]
      have hpred : ∀ c ∈ distinctCurrencies ms,
          (decide (c ∉ acc.map Prod.fst) && decide (c ≠ m.currency))
            = decide (c ∉ acc.map Prod.fst) := by
        intro c _
        by_cases hc : c ∈ acc.map Prod.fst
        · simp [hc]
        · have : c ≠ m.currency := fun he => hc (he ▸ h)
          simp [hc, this]
      rw [List.filter_congr hpred]
      apply List.map_congr_left
      intro c hc
      have hck : c ∉ acc.map Prod.fst := by simpa using (List.mem_filter.mp hc).2
      have hcne : m.currency ≠ c := fun he => hck (he ▸ h)
      rw [currencySum_cons, if_neg hcne, zero_add]
  · have hno : ¬ (acc.any (fun p => decide (p.1 = m.currency)) = true) := by
      simp only [List.any_eq_true, decide_eq_true_eq]
      rintro ⟨p, hp, hpe⟩
      exact h (List.mem_map.mpr ⟨p, hp, hpe⟩)
    rw [addToTotals, if_neg hno]
    unfold specMerge
    rw [distinctCurrencies_cons, List.filter_cons, if_pos (by simp [h]), List.filter_filter]
    simp only [List.map_append, List.map_cons, List.map_nil]
    have hpred : ∀ c ∈ distinctCurrencies ms,
        (decide (c ∉ acc.map Prod.fst ++ [m.currency]))
          = (decide (c ∉ acc.map Prod.fst) && decide (c ≠ m.currency)) := by
      intro c _
      by_cases hc : c ∈ acc.map Prod.fst
      · simp [hc]
      · by_cases hcm : c = m.currency <;> simp [hc, hcm]
    rw [List.filter_congr hpred]
    have hfront : acc.map (fun p => (p.1, p.2 + currencySum p.1 ms))
        = acc.map (fun p => (p.1, p.2 + currencySum p.1 (m :: ms))) := by
      apply List.map_congr_left
      intro p hp
      have hpk : p.1 ∈ acc.map Prod.fst := List.mem_map.mpr ⟨p, hp, rfl⟩
      have hpne : m.currency ≠ p.1 := fun he => h (he ▸ hpk)
      rw [currencySum_cons, if_neg hpne, zero_add]
    rw [hfront]
    have htail : (((distinctCurrencies ms).filter
          (fun c => decide (c ∉ acc.map Prod.fst) && decide (c ≠ m.currency))).map
            (fun c => (c, currencySum c ms)))
        = (((distinctCurrencies ms).filter
          (fun c => decide (c ∉ acc.map Prod.fst) && decide (c ≠ m.currency))).map
            (fun c => (c, currencySum c (m :: ms)))) := by
      apply List.map_congr_left
      intro c hc
      have hcm : ¬ (c = m.currency) := by
        have := (List.mem_filter.mp hc).2
        simp only [Bool.and_eq_true, decide_eq_true_eq] at this
        exact this.2
      rw [currencySum_cons, if_neg (fun he => hcm he.symm), zero_add]
    rw [htail]
    simp [currencySum_cons, List.append_assoc]


theorem foldl_addToTotals (ms : List Money) (acc : List (String × ℚ)) :
    ms.foldl addToTotals acc = specMerge acc ms := by
  induction ms generalizing acc with
  | nil =>
    simp [specMerge, distinctCurrencies, currencySum]
  | cons m ms ih =>
    rw [List.foldl_cons, ih, specMerge_addToTotals]

theorem sum_moneys_eq_spec (ms : List Money) : sum_moneys ms = sum_moneys_spec ms := by
  rw [sum_moneys, foldl_addToTotals, specMerge, sum_moneys_spec]
  simp [List.map_map, Function.comp]


theorem depositMoneys_def (t : List Transaction) :
    List.map (fun tx => tx.money) (t.filter (fun tx => decide (0 < tx.money.amount)))
      = depositMoneys t := rfl

theorem withdrawalMoneys_def (t : List Transaction) :
    List.map (fun tx => tx.money) (t.filter (fun tx => decide (tx.money.amount < 0)))
      = withdrawalMoneys t := rfl

theorem calc_totals_eq (t : List Transaction) :
    calculate_transaction_totals t =
      if 1 < (distinctCurrencies (depositMoneys t)).length then
        Except.error "Multiple currencies found in deposits"
      else if 1 < (distinctCurrencies (withdrawalMoneys t)).length then
        Except.error "Multiple currencies found in withdrawals"
      else if (depositsSumOf t).currency ≠ "" ∧ (withdrawalsSumOf t).currency ≠ "" ∧
          (depositsSumOf t).currency ≠ (withdrawalsSumOf t).currency then
        Except.error "Deposits and withdrawals have different currencies"
      else
        Except.ok
          { total_deposits := depositsSumOf t
            total_withdrawals := withdrawalsSumOf t
            net_change :=
              { amount := (depositsSumOf t).amount + (withdrawalsSumOf t).amount
                currency := (depositsSumOf t).currency } } := by
  by_cases h0 : t.length = 0
  · have ht : t = [] := List.length_eq_zero.mp h0
    subst ht
    simp [calculate_transaction_totals, depositMoneys, withdrawalMoneys, depositsSumOf,
      withdrawalsSumOf, distinctCurrencies]
  · unfold calculate_transaction_totals
    rw [if_neg h0]
    simp only [depositMoneys_def, withdrawalMoneys_def,
      sum_moneys_eq_spec, sum_moneys_spec, depositsSumOf, withdrawalsSumOf]
    rcases hdm : distinctCurrencies (depositMoneys t) with _ | ⟨c, _ | ⟨c2, cs⟩⟩ <;>
      rcases hwm : distinctCurrencies (withdrawalMoneys t) with _ | ⟨d, _ | ⟨d2, ds⟩⟩ <;>
        simp [hdm, hwm]


theorem depositsSumOf_currency (t : List Transaction) :
    (depositsSumOf t).currency = soleCurrency (depositMoneys t) := by
  unfold depositsSumOf soleCurrency
  rcases distinctCurrencies (depositMoneys t) with _ | ⟨c, _ | ⟨c2, cs⟩⟩ <;> rfl

theorem withdrawalsSumOf_currency (t : List Transaction) :
    (withdrawalsSumOf t).currency = soleCurrency (withdrawalMoneys t) := by
  unfold withdrawalsSumOf soleCurrency
  rcases distinctCurrencies (withdrawalMoneys t) with _ | ⟨c, _ | ⟨c2, cs⟩⟩ <;> rfl

theorem calc_totals_ok_fields (t : List Transaction) (totals : TransactionTotals)
    (h : calculate_transaction_totals t = Except.ok totals) :
    totals =
      { total_deposits := depositsSumOf t
        total_withdrawals := withdrawalsSumOf t
        net_change :=
          { amount := (depositsSumOf t).amount + (withdrawalsSumOf t).amount
            currency := (depositsSumOf t).currency } } := by
  rw [calc_totals_eq t] at h
  split_ifs at h
  cases h
  rfl

theorem except_bind_ok {α β : Type} (a : α) (f : α → Except String β) :
    (Except.ok (ε := String) a >>= f) = f a := rfl

theorem reconcile_eq (b : BalanceAnalysis) (t : List Transaction)
    (totals : TransactionTotals)
    (h : calculate_transaction_totals t = Except.ok totals) :
    reconcile_balances b t = Except.ok (reconcileResultOf b t totals) := by
  unfold reconcile_balances reconcileResultOf
  rw [h, except_bind_ok]
  dsimp only
  split <;> split
  all_goals simp_all [pure, Except.pure]
  all_goals linarith

theorem reconcile_error (b : BalanceAnalysis) (t : List Transaction) (e : String)
    (h : calculate_transaction_totals t = Except.error e) :
    reconcile_balances b t = Except.error e := by
  unfold reconcile_balances
  rw [h]
  rfl

theorem reconcileResultOf_count (b : BalanceAnalysis) (t : List Transaction)
    (totals : TransactionTotals) :
    (reconcileResultOf b t totals).transactions_count = t.length := by
  unfold reconcileResultOf
  dsimp only
  split <;> rfl

theorem reconcileResultOf_expected (b : BalanceAnalysis) (t : List Transaction)
    (totals : TransactionTotals) :
    (reconcileResultOf b t totals).expected_closing_balance.amount
      = b.opening_balance.amount + totals.net_change.amount := by
  unfold reconcileResultOf
  dsimp only
  split <;> rfl

theorem reconcileResultOf_reconciles (b : BalanceAnalysis) (t : List Transaction)
    (totals : TransactionTotals) :
    (reconcileResultOf b t totals).reconciles
      = decide (round3 |b.opening_balance.amount + totals.net_change.amount
          - b.closing_balance.amount| < 1/100) := by
  unfold reconcileResultOf
  dsimp only
  split
  · next hlt => exact (decide_eq_true hlt).symm
  · next hlt => exact (decide_eq_false hlt).symm

theorem reconcileResultOf_reason (b : BalanceAnalysis) (t : List Transaction)
    (totals : TransactionTotals) :
    (reconcileResultOf b t totals).discrepancy_reason
      = if round3 |b.opening_balance.amount + totals.net_change.amount
            - b.closing_balance.amount| < 1/100 then none
        else some (discrepancyMessage b totals
          (b.opening_balance.amount + totals.net_change.amount)
          (round3 |b.opening_balance.amount + totals.net_change.amount
            - b.closing_balance.amount|)) := by
  unfold reconcileResultOf
  dsimp only
  split <;> rfl

theorem reconcileResultOf_deposits (b : BalanceAnalysis) (t : List Transaction)
    (totals : TransactionTotals) :
    (reconcileResultOf b t totals).total_deposits = totals.total_deposits := by
  unfold reconcileResultOf
  dsimp only
  split <;> rfl

theorem reconcileResultOf_withdrawals (b : BalanceAnalysis) (t : List Transaction)
    (totals : TransactionTotals) :
    (reconcileResultOf b t totals).total_withdrawals = totals.total_withdrawals := by
  unfold reconcileResultOf
  dsimp only
  split <;> rfl

theorem reconcileResultOf_net (b : BalanceAnalysis) (t : List Transaction)
    (totals : TransactionTotals) :
    (reconcileResultOf b t totals).net_change = totals.net_change := by
  unfold reconcileResultOf
  dsimp only
  split <;> rfl

theorem reconcile_ok_inv (b : BalanceAnalysis) (t : List Transaction)
    (r : ReconciliationResult) (h : reconcile_balances b t = Except.ok r) :
    ∃ totals, calculate_transaction_totals t = Except.ok totals ∧
      r = reconcileResultOf b t totals := by
  cases hc : calculate_transaction_totals t with
  | error e =>
    rw [reconcile_error b t e hc] at h
    cases h
  | ok totals =>
    rw [reconcile_eq b t totals hc] at h
    injection h with h2
    exact ⟨totals, rfl, h2.symm⟩

theorem depositMoneys_filter_nonzero (t : List Transaction) :
    depositMoneys (t.filter (fun tx => decide (tx.money.amount ≠ 0))) = depositMoneys t := by
  unfold depositMoneys
  rw [List.filter_filter]
  congr 1
  apply List.filter_congr
  intro tx _
  by_cases hx : 0 < tx.money.amount
  · simp [hx, ne_of_gt hx]
  · simp [hx]

theorem withdrawalMoneys_filter_nonzero (t : List Transaction) :
    withdrawalMoneys (t.filter (fun tx => decide (tx.money.amount ≠ 0))) = withdrawalMoneys t := by
  unfold withdrawalMoneys
  rw [List.filter_filter]
  congr 1
  apply List.filter_congr
  intro tx _
  by_cases hx : tx.money.amount < 0
  · simp [hx, ne_of_lt hx]
  · simp [hx]

theorem calc_totals_filter_nonzero (t : List Transaction) :
    calculate_transaction_totals (t.filter (fun tx => decide (tx.money.amount ≠ 0)))
      = calculate_transaction_totals t := by
  rw [calc_totals_eq, calc_totals_eq]
  simp only [depositsSumOf, withdrawalsSumOf, depositMoneys_filter_nonzero,
    withdrawalMoneys_filter_nonzero]

unseal Rat.add Rat.sub Rat.mul Rat.inv in
theorem round3_below_boundary : round3 (99999/10000000) = 1/100 := by decide

unseal Rat.add Rat.sub Rat.mul Rat.inv in
theorem round3_at_boundary : round3 ((1 : ℚ)/100) = 1/100 := by decide

/-- C1: whenever totals computation succeeds on a transaction list,
`reconcile_balances` returns a result whose expected closing balance
amount is the claim's opening balance amount plus the computed net
change amount, and whose `reconciles` flag is true exactly when the
absolute difference between the expected and the claimed closing
balance amounts, rounded to three decimal places, is strictly less
than 0.01. -/
theorem reconcile_expected_closing_and_tolerance (b : BalanceAnalysis)
    (t : List Transaction) (totals : TransactionTotals)
    (h : calculate_transaction_totals t = Except.ok totals) :
    reconcile_balances b t = Except.ok (reconcileResultOf b t totals) ∧
    (reconcileResultOf b t totals).expected_closing_balance.amount
      = b.opening_balance.amount + totals.net_change.amount ∧
    ((reconcileResultOf b t totals).reconciles = true ↔
      round3 |b.opening_balance.amount + totals.net_change.amount
        - b.closing_balance.amount| < 1/100) := by
  refine ⟨reconcile_eq b t totals h, reconcileResultOf_expected b t totals, ?_⟩
  rw [reconcileResultOf_reconciles]
  exact decide_eq_true_iff

unseal Rat.add Rat.sub Rat.mul Rat.inv in
/-- Witness for C1 at the spec's running example. -/
theorem reconcile_expected_closing_and_tolerance_witness :
    reconcile_balances (sampleClaim 50 120 "USD") sampleTxs
      = Except.ok (reconcileResultOf (sampleClaim 50 120 "USD") sampleTxs sampleTotals) :=
  (reconcile_expected_closing_and_tolerance (sampleClaim 50 120 "USD") sampleTxs
    sampleTotals (by rfl)).1

/-- C2: totals computation fails exactly when the deposit subset spans
more than one currency, or the withdrawal subset spans more than one
currency, or the two sums have non-empty currencies that differ; and
whenever it fails, `reconcile_balances` propagates the same error
unchanged instead of returning a result. -/
theorem calc_totals_multicurrency (t : List Transaction) :
    ((∃ e, calculate_transaction_totals t = Except.error e) ↔ multiCurrencyCondition t) ∧
    (∀ e b, calculate_transaction_totals t = Except.error e →
      reconcile_balances b t = Except.error e) := by
  constructor
  · rw [calc_totals_eq t]
    unfold multiCurrencyCondition
    rw [← depositsSumOf_currency, ← withdrawalsSumOf_currency]
    split_ifs with h1 h2 h3
    · simp [h1]
    · simp [h1, h2]
    · simp [h1, h2, h3]
    · simp [h1, h2, h3]
  · intro e b he
    exact reconcile_error b t e he

unseal Rat.add Rat.sub Rat.mul Rat.inv in
/-- Witness for C2 at the spec's multi-currency example. -/
theorem calc_totals_multicurrency_witness :
    reconcile_balances (sampleClaim 0 0 "USD") [sampleTx 50 "USD", sampleTx (-20) "EUR"]
      = Except.error "Deposits and withdrawals have different currencies" :=
  (calc_totals_multicurrency [sampleTx 50 "USD", sampleTx (-20) "EUR"]).2
    "Deposits and withdrawals have different currencies" (sampleClaim 0 0 "USD") (by rfl)

unseal Rat.add Rat.sub Rat.mul Rat.inv in
/-- C3 counterexample: with opening balance 0, no transactions, and a
claimed closing balance of exactly 0.0099999, the claimed closing
differs from the expected closing (0) by exactly 0.0099999, yet
`reconcile_balances` returns `reconciles = false`, refuting the claim
that such an input reconciles: the difference is rounded to three
decimal places (giving 0.01) before the strict comparison. -/
theorem tolerance_below_boundary_counterexample :
    |(sampleClaim 0 (99999/10000000) "USD").opening_balance.amount
        - (sampleClaim 0 (99999/10000000) "USD").closing_balance.amount|
      = 99999/10000000 ∧
    (reconcile_balances (sampleClaim 0 (99999/10000000) "USD") []).map
        (fun r => r.reconciles) = Except.ok false :=
  ⟨by decide, rfl⟩

/-- C3 amended: if the claimed closing balance differs from the
expected closing balance by exactly 0.0099999 or by exactly 0.01, the
difference rounded to three decimal places is 0.01 in both cases, so
`reconcile_balances` returns `reconciles = false` for both (the
tolerance test is a strict less-than applied to the rounded
difference). -/
theorem tolerance_boundary_amended (b : BalanceAnalysis) (t : List Transaction)
    (totals : TransactionTotals)
    (h : calculate_transaction_totals t = Except.ok totals)
    (hd : |b.opening_balance.amount + totals.net_change.amount - b.closing_balance.amount|
          = 99999/10000000 ∨
        |b.opening_balance.amount + totals.net_change.amount - b.closing_balance.amount|
          = 1/100) :
    reconcile_balances b t = Except.ok (reconcileResultOf b t totals) ∧
    (reconcileResultOf b t totals).reconciles = false := by
  refine ⟨reconcile_eq b t totals h, ?_⟩
  rw [reconcileResultOf_reconciles]
  rcases hd with hd | hd <;> rw [hd]
  · rw [round3_below_boundary]
    simp
  · rw [round3_at_boundary]
    simp

unseal Rat.add Rat.sub Rat.mul Rat.inv in
/-- Witness for the amended C3 at a difference of exactly 0.01. -/
theorem tolerance_boundary_amended_witness :
    reconcile_balances (sampleClaim 0 (1/100) "USD") []
      = Except.ok (reconcileResultOf (sampleClaim 0 (1/100) "USD") [] zeroTotals) ∧
    (reconcileResultOf (sampleClaim 0 (1/100) "USD") [] zeroTotals).reconciles = false :=
  tolerance_boundary_amended (sampleClaim 0 (1/100) "USD") [] zeroTotals (by rfl)
    (Or.inr (by decide))

unseal Rat.add Rat.sub Rat.mul Rat.inv in
/-- C4 counterexample: for a list holding the single withdrawal of
20 USD, totals computation succeeds and the withdrawals sum carries the
currency USD, yet the net change carries the empty-string currency, not
the withdrawals currency, refuting the claim that `net_change.currency`
is whichever side's currency is non-empty. -/
theorem net_change_currency_counterexample :
    calculate_transaction_totals [sampleTx (-20) "USD"] = Except.ok onlyWithdrawalTotals ∧
    onlyWithdrawalTotals.total_withdrawals.currency = "USD" ∧
    onlyWithdrawalTotals.net_change.currency ≠ "USD" :=
  ⟨rfl, rfl, by decide⟩

/-- C4 amended: whenever totals computation succeeds, the net change
carries the deposits sum's currency unconditionally; in particular,
for a list containing only withdrawals the net change carries the empty
sentinel currency, not the withdrawals currency. -/
theorem net_change_currency_amended (t : List Transaction) (totals : TransactionTotals)
    (h : calculate_transaction_totals t = Except.ok totals) :
    totals.net_change.currency = totals.total_deposits.currency := by
  rw [calc_totals_ok_fields t totals h]

unseal Rat.add Rat.sub Rat.mul Rat.inv in
/-- Witness for the amended C4 at the single 20 USD withdrawal. -/
theorem net_change_currency_amended_witness :
    onlyWithdrawalTotals.net_change.currency = onlyWithdrawalTotals.total_deposits.currency :=
  net_change_currency_amended [sampleTx (-20) "USD"] onlyWithdrawalTotals (by rfl)

unseal Rat.add Rat.sub Rat.mul Rat.inv in
/-- C5 counterexample: a deposit set mixing the empty-string sentinel
currency with the single real code USD does not aggregate into one sum;
`calculate_transaction_totals` raises the deposits multi-currency
error, refuting the claim that the sentinel is combinable inside a
deposit set. -/
theorem sentinel_mixing_counterexample :
    calculate_transaction_totals [sampleTx 50 "", sampleTx 50 "USD"]
      = Except.error "Multiple currencies found in deposits" := rfl

/-- C5 amended: inside a deposit (or withdrawal) set the empty-string
sentinel counts as a currency of its own, so a set mixing it with a
real code spans two currencies and raises the multi-currency error;
the sentinel is a wildcard only between the two sides: when each side
resolves to at most one currency and at least one side's currency is
the sentinel, totals computation succeeds. -/
theorem sentinel_across_sides_only (t : List Transaction) :
    (1 < (distinctCurrencies (depositMoneys t)).length →
      calculate_transaction_totals t = Except.error "Multiple currencies found in deposits") ∧
    (¬ 1 < (distinctCurrencies (depositMoneys t)).length →
      ¬ 1 < (distinctCurrencies (withdrawalMoneys t)).length →
      (soleCurrency (depositMoneys t) = "" ∨ soleCurrency (withdrawalMoneys t) = "") →
      calculate_transaction_totals t = Except.ok
        { total_deposits := depositsSumOf t
          total_withdrawals := withdrawalsSumOf t
          net_change :=
            { amount := (depositsSumOf t).amount + (withdrawalsSumOf t).amount
              currency := (depositsSumOf t).currency } }) := by
  constructor
  · intro h1
    rw [calc_totals_eq t, if_pos h1]
  · intro h1 h2 hs
    have hno : ¬ ((depositsSumOf t).currency ≠ "" ∧ (withdrawalsSumOf t).currency ≠ "" ∧
        (depositsSumOf t).currency ≠ (withdrawalsSumOf t).currency) := by
      rintro ⟨ha, hb, _⟩
      rcases hs with hs | hs
      · exact ha ((depositsSumOf_currency t).trans hs)
      · exact hb ((withdrawalsSumOf_currency t).trans hs)
    rw [calc_totals_eq t, if_neg h1, if_neg h2, if_neg hno]

unseal Rat.add Rat.sub Rat.mul Rat.inv in
/-- Witness for the amended C5: sentinel-currency deposits combined
with USD withdrawals succeed (the wildcard applies across sides). -/
theorem sentinel_across_sides_only_witness :
    calculate_transaction_totals [sampleTx 50 "", sampleTx (-20) "USD"]
      = Except.ok
        { total_deposits := depositsSumOf [sampleTx 50 "", sampleTx (-20) "USD"]
          total_withdrawals := withdrawalsSumOf [sampleTx 50 "", sampleTx (-20) "USD"]
          net_change :=
            { amount := (depositsSumOf [sampleTx 50 "", sampleTx (-20) "USD"]).amount
                + (withdrawalsSumOf [sampleTx 50 "", sampleTx (-20) "USD"]).amount
              currency := (depositsSumOf [sampleTx 50 "", sampleTx (-20) "USD"]).currency } } :=
  (sentinel_across_sides_only [sampleTx 50 "", sampleTx (-20) "USD"]).2
    (by decide) (by decide) (Or.inl (by decide))

/-- C6: on the empty transaction list, totals computation succeeds with
deposits, withdrawals and net change all zero with the empty-string
currency; consequently reconciliation of an empty list runs through the
normal code path with expected closing equal to the claimed opening
balance amount, so it reduces to comparing the claim's opening and
closing balances. -/
theorem empty_transactions_degenerate (b : BalanceAnalysis) :
    calculate_transaction_totals ([] : List Transaction)
      = Except.ok
        { total_deposits := { amount := 0, currency := "" }
          total_withdrawals := { amount := 0, currency := "" }
          net_change := { amount := 0, currency := "" } } ∧
    reconcile_balances b [] = Except.ok (reconcileResultOf b [] zeroTotals) ∧
    (reconcileResultOf b [] zeroTotals).expected_closing_balance.amount
      = b.opening_balance.amount ∧
    ((reconcileResultOf b [] zeroTotals).reconciles = true ↔
      round3 |b.opening_balance.amount - b.closing_balance.amount| < 1/100) := by
  refine ⟨rfl, reconcile_eq b [] zeroTotals rfl, ?_, ?_⟩
  · rw [reconcileResultOf_expected]
    show b.opening_balance.amount + (0 : ℚ) = b.opening_balance.amount
    exact add_zero _
  · rw [reconcileResultOf_reconciles]
    show decide (round3 |b.opening_balance.amount + (0 : ℚ)
        - b.closing_balance.amount| < 1/100) = true ↔ _
    rw [add_zero]
    exact decide_eq_true_iff

/-- C7: whenever totals computation succeeds, the net change amount is
the sum of the deposits and withdrawals totals; a deposits-only list
yields a zero withdrawals total and a withdrawals-only list a zero
deposits total; removing the zero-amount transactions leaves the totals
unchanged, while the reconciliation result's transactions_count counts
the full list, zero-amount transactions included. -/
theorem totals_sign_and_zero_conventions (t : List Transaction) (totals : TransactionTotals)
    (h : calculate_transaction_totals t = Except.ok totals) :
    totals.net_change.amount
        = totals.total_deposits.amount + totals.total_withdrawals.amount ∧
    ((∀ tx ∈ t, 0 < tx.money.amount) → totals.total_withdrawals.amount = 0) ∧
    ((∀ tx ∈ t, tx.money.amount < 0) → totals.total_deposits.amount = 0) ∧
    calculate_transaction_totals (t.filter (fun tx => tx.money.amount ≠ 0))
        = Except.ok totals ∧
    (∀ b r, reconcile_balances b t = Except.ok r → r.transactions_count = t.length) := by
  have hf := calc_totals_ok_fields t totals h
  refine ⟨?_, ?_, ?_, ?_, ?_⟩
  · rw [hf]
  · intro hall
    have hwm : withdrawalMoneys t = [] := by
      unfold withdrawalMoneys
      rw [List.map_eq_nil_iff, List.filter_eq_nil_iff]
      intro tx htx
      simp only [decide_eq_true_eq, not_lt]
      exact le_of_lt (hall tx htx)
    rw [hf]
    show (withdrawalsSumOf t).amount = 0
    unfold withdrawalsSumOf
    rw [hwm]
    rfl
  · intro hall
    have hdm : depositMoneys t = [] := by
      unfold depositMoneys
      rw [List.map_eq_nil_iff, List.filter_eq_nil_iff]
      intro tx htx
      simp only [decide_eq_true_eq, not_lt]
      exact le_of_lt (hall tx htx)
    rw [hf]
    show (depositsSumOf t).amount = 0
    unfold depositsSumOf
    rw [hdm]
    rfl
  · rw [calc_totals_filter_nonzero t]
    exact h
  · intro b r hr
    obtain ⟨totals2, hc2, hre⟩ := reconcile_ok_inv b t r hr
    rw [hre]
    exact reconcileResultOf_count b t totals2

unseal Rat.add Rat.sub Rat.mul Rat.inv in
/-- Witness for C7 at the spec's running example. -/
theorem totals_sign_and_zero_conventions_witness :
    sampleTotals.net_change.amount
      = sampleTotals.total_deposits.amount + sampleTotals.total_withdrawals.amount :=
  (totals_sign_and_zero_conventions sampleTxs sampleTotals (by rfl)).1

/-- C8: the currency aggregator returns one Money per distinct input
currency, carrying the sum of the amounts in that currency, ordered by
first occurrence of the currency in the input, and the empty input
yields the empty list. -/
theorem sum_moneys_characterization (ms : List Money) :
    sum_moneys ms = sum_moneys_spec ms ∧ sum_moneys ([] : List Money) = [] :=
  ⟨sum_moneys_eq_spec ms, rfl⟩

/-- C9: whenever reconciliation returns a result with
`reconciles = false`, its discrepancy_reason is present and is the
message enumerating the opening balance, the totals, the net change and
the expected and reported closing balances followed by the rounded
numeric difference; whenever `reconciles = true`, discrepancy_reason is
absent. -/
theorem discrepancy_reason_conditions (b : BalanceAnalysis) (t : List Transaction)
    (r : ReconciliationResult) (hr : reconcile_balances b t = Except.ok r) :
    (r.reconciles = false →
      r.discrepancy_reason = some (discrepancyPreamble b
          { total_deposits := r.total_deposits
            total_withdrawals := r.total_withdrawals
            net_change := r.net_change }
          r.expected_closing_balance.amount
        ++ showAmount (round3 |r.expected_closing_balance.amount
            - b.closing_balance.amount|)
        ++ discrepancyTail)) ∧
    (r.reconciles = true → r.discrepancy_reason = none) := by
  obtain ⟨totals, hc, hre⟩ := reconcile_ok_inv b t r hr
  subst hre
  constructor
  · intro hfalse
    rw [reconcileResultOf_reconciles] at hfalse
    have hP := of_decide_eq_false hfalse
    rw [reconcileResultOf_reason, if_neg hP, reconcileResultOf_deposits,
      reconcileResultOf_withdrawals, reconcileResultOf_net, reconcileResultOf_expected]
    rfl
  · intro htrue
    rw [reconcileResultOf_reconciles] at htrue
    have hP := of_decide_eq_true htrue
    rw [reconcileResultOf_reason, if_pos hP]

unseal Rat.add Rat.sub Rat.mul Rat.inv in
/-- Witness for C9 at the spec's discrepancy example (claimed closing
125 against expected 120, difference 5). -/
theorem discrepancy_reason_conditions_witness :
    (reconcileResultOf (sampleClaim 50 125 "USD") sampleTxs sampleTotals).discrepancy_reason
      = some (discrepancyPreamble (sampleClaim 50 125 "USD") sampleTotals 120
          ++ showAmount 5 ++ discrepancyTail) := by
  rw [(discrepancy_reason_conditions (sampleClaim 50 125 "USD") sampleTxs
      (reconcileResultOf (sampleClaim 50 125 "USD") sampleTxs sampleTotals)
      (reconcile_eq (sampleClaim 50 125 "USD") sampleTxs sampleTotals (by rfl))).1 (by rfl)]
  rfl

/-- C10: reconciliation is deterministic: two calls on equal balance
claims and equal transaction lists return equal results in every
field; no state outside the two arguments enters the computation. -/
theorem reconcile_two_run_determinism (b1 b2 : BalanceAnalysis)
    (t1 t2 : List Transaction) (hb : b1 = b2) (ht : t1 = t2) :
    reconcile_balances b1 t1 = reconcile_balances b2 t2 := by
  rw [hb, ht]

/-- Witness for C10 at the spec's running example. -/
theorem reconcile_two_run_determinism_witness :
    reconcile_balances (sampleClaim 50 120 "USD") sampleTxs
      = reconcile_balances (sampleClaim 50 120 "USD") sampleTxs :=
  reconcile_two_run_determinism (sampleClaim 50 120 "USD") (sampleClaim 50 120 "USD")
    sampleTxs sampleTxs rfl rfl
end BankStatement
